import Mathlib

/-!
Verification of the capture-upload-display-speak flow of `src/App.tsx`.

The component is shallowly embedded: each run of `takePhoto` /
`sendImageToServer` is modelled as the list of observable events it performs
(React state updates, the fetch call, speech, alerts, console logs), given an
environment describing the outcome of each external suspension point
(camera permission, camera capture, fetch, JSON parse, speech engine).
Session state is reconstructed by folding the state-updating events over the
initial state, so claims about intermediate states are claims about prefixes
of the event trace.

JavaScript `undefined` reaching the typed `predictions` state (the
`data.predictions` field of a JSON body that lacks one) is modelled by
`Option (List Prediction)`: `none` is `undefined`, `some l` is an array.
-/

/-- One classification result returned by the inference server
(interface `Prediction` in `src/App.tsx`). `probability` is modelled as a
rational number. -/
structure Prediction where
  class_id : String
  class_name : String
  probability : ℚ
deriving DecidableEq, Repr

/-- The React state of the `App` component: captured image URI, stored
predictions (`none` models the JavaScript value `undefined`), loading flag,
and server IP string. -/
structure SessionState where
  imageUri : Option String
  predictions : Option (List Prediction)
  isLoading : Bool
  serverIP : String
deriving DecidableEq, Repr

/-- The `useState` initial values of the component. -/
def initialState : SessionState :=
  { imageUri := none
    predictions := some []
    isLoading := false
    serverIP := "54.164.207.27" }

/-- The HTTP request assembled by `sendImageToServer`: method, URL, the single
multipart form part (name, filename, content type, file URI) and the
explicit `Content-Type` header. -/
structure Request where
  method : String
  url : String
  partName : String
  fileName : String
  fileType : String
  fileUri : String
  contentTypeHeader : String
deriving DecidableEq, Repr

/-- Outcome of `response.json()` on a resolved fetch: the promise rejects
(body is not JSON), or it parses and `data.predictions` is either absent
(`none`, i.e. `undefined`) or an array. -/
inductive JsonResult where
  | parseFail
  | parsed (jsPredictions : Option (List Prediction))
deriving DecidableEq, Repr

/-- Outcome of the `fetch` call: the promise rejects (network failure) or
resolves with a status code and a body. The code never reads the status. -/
inductive FetchOutcome where
  | reject
  | resolve (status : Nat) (body : JsonResult)
deriving DecidableEq, Repr

/-- Outcome of the `Speech.speak` engine call: normal, or it throws (which
`speakPredictions` catches and logs). -/
inductive SpeechOutcome where
  | ok
  | engineFail
deriving DecidableEq, Repr

/-- Environment for one run of `sendImageToServer`. -/
structure UploadEnv where
  fetch : FetchOutcome
  speech : SpeechOutcome
deriving DecidableEq, Repr

/-- Outcome of `ImagePicker.requestCameraPermissionsAsync`. -/
inductive PermissionOutcome where
  | granted
  | denied
deriving DecidableEq, Repr

/-- Outcome of `ImagePicker.launchCameraAsync`: cancelled, or an asset URI. -/
inductive CaptureOutcome where
  | canceled
  | captured (uri : String)
deriving DecidableEq, Repr

/-- Environment for one run of `takePhoto`. -/
structure CaptureEnv where
  permission : PermissionOutcome
  capture : CaptureOutcome
  upload : UploadEnv
deriving DecidableEq, Repr

/-- Observable events of a run: React state setters, the fetch request being
issued and settling, the speech utterance, `alert`, and `console.error`. -/
inductive Event where
  | setLoading (b : Bool)
  | setImageUri (uri : String)
  | setPredictions (p : Option (List Prediction))
  | fetchStart (req : Request)
  | fetchEnd
  | speak (utterance : String)
  | alertShown (msg : String)
  | consoleError (msg : String)
deriving DecidableEq, Repr

/-- Effect of one event on the React state. -/
def applyEvent (s : SessionState) : Event → SessionState
  | .setLoading b => { s with isLoading := b }
  | .setImageUri u => { s with imageUri := some u }
  | .setPredictions p => { s with predictions := p }
  | _ => s

/-- State after a whole event trace. -/
def runEvents (s : SessionState) (evs : List Event) : SessionState :=
  evs.foldl applyEvent s

/-- State after the first `i` events of a trace. -/
def stateAt (s : SessionState) (evs : List Event) (i : ℕ) : SessionState :=
  runEvents s (evs.take i)

/-- JavaScript `Number.prototype.toFixed(2)` on the magnitude `num / den` of
a rational: the integer `n` with `n / 100` closest to the value, ties to the
larger `n` (so `n = ⌊(200*num + den) / (2*den)⌋`, round half up), rendered
with exactly two fractional digits. -/
def jsToFixed2Mag (num den : ℕ) : String :=
  toString ((200 * num + den) / (2 * den) / 100) ++ "." ++
    (if (200 * num + den) / (2 * den) % 100 < 10 then "0" else "") ++
    toString ((200 * num + den) / (2 * den) % 100)

/-- JavaScript `toFixed(2)`, with the sign handled as in the ECMAScript
algorithm (format the magnitude, prefix a minus sign for a negative value). -/
def jsToFixed2 (x : ℚ) : String :=
  if x.num < 0 then "-" ++ jsToFixed2Mag (-x.num).toNat x.den
  else jsToFixed2Mag x.num.toNat x.den

/-- Multiplication by 100 on ℚ, computed on the numerator so that concrete
values reduce by kernel evaluation; `timesOneHundred_eq` below proves it
equal to `x * 100`. -/
def timesOneHundred (x : ℚ) : ℚ := mkRat (x.num * 100) x.den

/-- The per-prediction phrase built in `speakPredictions`:
`"{class_name} con {(probability*100).toFixed(2)}% de probabilidad"`. -/
def predPhrase (p : Prediction) : String :=
  p.class_name ++ " con " ++ jsToFixed2 (timesOneHundred p.probability) ++ "% de probabilidad"

/-- Message of `alert` in the catch block of `sendImageToServer`. -/
def errorAlertMsg : String := "Error al procesar la imagen"

/-- Message prefix of `console.error` in the catch block of
`sendImageToServer`. -/
def sendErrorLog : String := "Error al enviar la imagen:"

/-- Message prefix of `console.error` in the catch block of
`speakPredictions`. -/
def speechErrorLog : String := "Error al reproducir audio:"

/-- Message of `alert` on camera-permission denial in `takePhoto`. -/
def permissionAlertMsg : String := "Se requieren permisos para usar la cámara."

/-- The `speakPredictions` function: builds `textToSpeak` by mapping each
prediction to its phrase and joining with `". "`, then calls `Speech.speak`
inside a try/catch that logs engine failures. When its argument is
`undefined` (`none`), the `.map` on the first line throws a `TypeError`
before the try block, so the exception propagates to the caller: the result
is the emitted events paired with whether the call threw. -/
def speakPredictions (sp : SpeechOutcome) : Option (List Prediction) → List Event × Bool
  | none => ([], true)
  | some preds =>
      let textToSpeak := String.intercalate ". " (preds.map predPhrase)
      match sp with
      | .ok => ([.speak textToSpeak], false)
      | .engineFail => ([.speak textToSpeak, .consoleError speechErrorLog], false)

/-- The request literal built by `sendImageToServer`: POST to
`http://{serverIP}:8720/predict/` with a single form part `file`
(filename `photo.jpg`, type `image/jpeg`) holding the image URI. -/
def mkRequest (serverIP uri : String) : Request :=
  { method := "POST"
    url := "http://" ++ serverIP ++ ":8720/predict/"
    partName := "file"
    fileName := "photo.jpg"
    fileType := "image/jpeg"
    fileUri := uri
    contentTypeHeader := "multipart/form-data" }

/-- The `sendImageToServer` function as an event trace. It sets the loading
flag, issues the fetch; on rejection or a JSON parse failure the catch block
logs and alerts; on a parsed body it stores `data.predictions` unconditionally
and awaits `speakPredictions`, whose `TypeError` on `undefined` lands in the
same catch block; the `finally` clause clears the loading flag on every
path. -/
def sendImageToServer (s : SessionState) (uri : String) (env : UploadEnv) : List Event :=
  .setLoading true :: .fetchStart (mkRequest s.serverIP uri) ::
    match env.fetch with
    | .reject =>
        [.fetchEnd, .consoleError sendErrorLog, .alertShown errorAlertMsg, .setLoading false]
    | .resolve _ .parseFail =>
        [.fetchEnd, .consoleError sendErrorLog, .alertShown errorAlertMsg, .setLoading false]
    | .resolve _ (.parsed jsPreds) =>
        let sp := speakPredictions env.speech jsPreds
        .fetchEnd :: .setPredictions jsPreds ::
          (sp.1 ++
            (if sp.2 then [.consoleError sendErrorLog, .alertShown errorAlertMsg] else []) ++
            [.setLoading false])

/-- The `takePhoto` function as an event trace: on permission denial it only
alerts; on a cancelled capture it does nothing; otherwise it stores the asset
URI and runs `sendImageToServer` on it. -/
def takePhoto (s : SessionState) (env : CaptureEnv) : List Event :=
  match env.permission with
  | .denied => [.alertShown permissionAlertMsg]
  | .granted =>
      match env.capture with
      | .canceled => []
      | .captured uri => .setImageUri uri :: sendImageToServer s uri env.upload

/-- Event classifier: is this the fetch being issued? -/
def isFetchStartEv : Event → Bool
  | .fetchStart _ => true
  | _ => false

/-- Event classifier: is this the fetch settling? -/
def isFetchEndEv : Event → Bool
  | .fetchEnd => true
  | _ => false

/-- Event classifier: is this a user-visible alert? -/
def isAlertEv : Event → Bool
  | .alertShown _ => true
  | _ => false

/-- Event classifier: is this a write to the predictions state? -/
def isSetPredictionsEv : Event → Bool
  | .setPredictions _ => true
  | _ => false

/-- The network request is in flight at trace position `i` when the fetch has
been issued among the first `i` events but has not yet settled. -/
def inFlightAt (evs : List Event) (i : ℕ) : Bool :=
  ((evs.take i).any isFetchStartEv) && !((evs.take i).any isFetchEndEv)

/-- What the JSX tree renders below the image: the loading indicator, the
results card with one (name, percent text) row per prediction, nothing (empty
list short-circuits the `&&`), or a render-time crash
(`predictions.length` on `undefined` throws). -/
inductive RenderBody where
  | loading
  | results (entries : List (String × String))
  | empty
  | renderError
deriving DecidableEq, Repr

/-- The visible output as a function of session state. -/
structure RenderOutput where
  image : Option String
  serverField : String
  body : RenderBody
deriving DecidableEq, Repr

/-- The component's render: the image card when a URI is stored; the loading
indicator when `isLoading`; otherwise the prediction rows, each showing
`class_name` and `(probability*100).toFixed(2) + "%"`, in list order. -/
def render (s : SessionState) : RenderOutput :=
  { image := s.imageUri
    serverField := s.serverIP
    body :=
      if s.isLoading then .loading
      else
        match s.predictions with
        | none => .renderError
        | some l =>
            if 0 < l.length then
              .results (l.map fun p =>
                (p.class_name, jsToFixed2 (timesOneHundred p.probability) ++ "%"))
            else .empty }

/-- The example prediction from the spec: class `gato`, probability 0.9321. -/
def gato : Prediction :=
  { class_id := "1", class_name := "gato", probability := mkRat 9321 10000 }

/-- A run whose fetch resolves with status 200 and body
`{"predictions":[gato]}`, and whose speech engine works. -/
def demoOkEnv : UploadEnv :=
  { fetch := .resolve 200 (.parsed (some [gato])), speech := .ok }

/-- A run whose fetch resolves with a non-2xx status and a JSON body that has
no `predictions` array (modelled by `jsPredictions = none`). -/
def demoFailEnv : UploadEnv :=
  { fetch := .resolve 404 (.parsed none), speech := .ok }

/-- A session state holding one previously received prediction. -/
def statePrior : SessionState := { initialState with predictions := some [gato] }

/-- An upload attempt counts as failing when the fetch rejects, the body is
not JSON, or the body is JSON without a `predictions` array (the last is the
shape of a typical non-2xx error body; the code never reads the status, so
the status itself is irrelevant). -/
def uploadAttemptFails (env : UploadEnv) : Prop :=
  env.fetch = .reject ∨
    (∃ st, env.fetch = .resolve st .parseFail) ∨
    (∃ st, env.fetch = .resolve st (.parsed none))

/-- The numerator-level multiplication agrees with rational multiplication
by 100, so `jsToFixed2 (timesOneHundred p.probability)` is a faithful model
of the source expression `(pred.probability * 100).toFixed(2)`. -/
theorem timesOneHundred_eq (x : ℚ) : timesOneHundred x = x * 100 := by
  rw [timesOneHundred, Rat.mkRat_eq_div]
  calc ((x.num * 100 : ℤ) : ℚ) / (x.den : ℚ)
      = ((x.num : ℚ) / (x.den : ℚ)) * 100 := by push_cast; ring
    _ = x * 100 := by rw [Rat.num_div_den]

/-- Evaluation of the spec's worked example: probability 0.9321 is formatted
as the phrase `gato con 93.21% de probabilidad`. -/
theorem gato_phrase : predPhrase gato = "gato con 93.21% de probabilidad" := by decide

/-- C3: every exit path of `sendImageToServer` — network rejection, JSON
parse failure, an `undefined` predictions field crashing the speech step, or
success with a working or failing speech engine — ends with the loading flag
false: the `finally` clause releases the flag on every path. -/
theorem C3_loading_released_on_every_exit (s : SessionState) (uri : String) (env : UploadEnv) :
    (runEvents s (sendImageToServer s uri env)).isLoading = false := by
  obtain ⟨f, sp⟩ := env
  cases f with
  | reject => simp [sendImageToServer, runEvents, applyEvent]
  | resolve status body =>
      cases body with
      | parseFail => simp [sendImageToServer, runEvents, applyEvent]
      | parsed jsPreds =>
          cases jsPreds with
          | none => cases sp <;> simp [sendImageToServer, speakPredictions, runEvents, applyEvent]
          | some l => cases sp <;> simp [sendImageToServer, speakPredictions, runEvents, applyEvent]

/-- C6: every run of `sendImageToServer` issues exactly one fetch, a POST to
`http://{serverIP}:8720/predict/` (with the server address read from the
session state), whose multipart body has the single part `file` with filename
`photo.jpg` and content type `image/jpeg`. -/
theorem C6_request_shape (s : SessionState) (uri : String) (env : UploadEnv) :
    (sendImageToServer s uri env).filter isFetchStartEv =
      [Event.fetchStart
        { method := "POST"
          url := "http://" ++ s.serverIP ++ ":8720/predict/"
          partName := "file"
          fileName := "photo.jpg"
          fileType := "image/jpeg"
          fileUri := uri
          contentTypeHeader := "multipart/form-data" }] := by
  obtain ⟨f, sp⟩ := env
  cases f with
  | reject => simp [sendImageToServer, mkRequest, isFetchStartEv]
  | resolve status body =>
      cases body with
      | parseFail => simp [sendImageToServer, mkRequest, isFetchStartEv]
      | parsed jsPreds =>
          cases jsPreds with
          | none =>
              cases sp <;>
                simp [sendImageToServer, speakPredictions, mkRequest, isFetchStartEv]
          | some l =>
              cases sp <;>
                simp [sendImageToServer, speakPredictions, mkRequest, isFetchStartEv]

/-- C8: when the permission is granted but the camera is cancelled,
`takePhoto` performs no event at all: the resulting state is the starting
state (every field included), no fetch is issued, and no alert is shown. -/
theorem C8_cancelled_capture_is_noop (s : SessionState) (env : CaptureEnv)
    (hp : env.permission = .granted) (hc : env.capture = .canceled) :
    takePhoto s env = [] ∧
    runEvents s (takePhoto s env) = s ∧
    (takePhoto s env).any isFetchStartEv = false ∧
    (takePhoto s env).any isAlertEv = false := by
  obtain ⟨p, c, u⟩ := env
  cases hp
  cases hc
  simp [takePhoto, runEvents]

/-- Witness for C8 at a concrete environment. -/
theorem C8_witness :
    ({ permission := .granted, capture := .canceled, upload := demoOkEnv } :
        CaptureEnv).permission = .granted ∧
    ({ permission := .granted, capture := .canceled, upload := demoOkEnv } :
        CaptureEnv).capture = .canceled ∧
    (takePhoto statePrior
        { permission := .granted, capture := .canceled, upload := demoOkEnv } = [] ∧
      runEvents statePrior (takePhoto statePrior
        { permission := .granted, capture := .canceled, upload := demoOkEnv }) = statePrior ∧
      (takePhoto statePrior
        { permission := .granted, capture := .canceled, upload := demoOkEnv }).any
          isFetchStartEv = false ∧
      (takePhoto statePrior
        { permission := .granted, capture := .canceled, upload := demoOkEnv }).any
          isAlertEv = false) :=
  ⟨rfl, rfl, C8_cancelled_capture_is_noop statePrior _ rfl rfl⟩

/-- C9: when the camera permission is denied, the only event of `takePhoto`
is the permission alert: an alert is shown, no fetch is ever issued, and the
session state is unchanged. -/
theorem C9_denied_permission_alerts_and_sends_nothing (s : SessionState) (env : CaptureEnv)
    (hp : env.permission = .denied) :
    takePhoto s env = [Event.alertShown permissionAlertMsg] ∧
    (takePhoto s env).any isFetchStartEv = false ∧
    runEvents s (takePhoto s env) = s := by
  obtain ⟨p, c, u⟩ := env
  cases hp
  simp [takePhoto, runEvents, applyEvent, isFetchStartEv]

/-- Witness for C9 at a concrete environment. -/
theorem C9_witness :
    ({ permission := .denied, capture := .canceled, upload := demoOkEnv } :
        CaptureEnv).permission = .denied ∧
    (takePhoto statePrior
        { permission := .denied, capture := .canceled, upload := demoOkEnv } =
          [Event.alertShown permissionAlertMsg] ∧
      (takePhoto statePrior
        { permission := .denied, capture := .canceled, upload := demoOkEnv }).any
          isFetchStartEv = false ∧
      runEvents statePrior (takePhoto statePrior
        { permission := .denied, capture := .canceled, upload := demoOkEnv }) = statePrior) :=
  ⟨rfl, C9_denied_permission_alerts_and_sends_nothing statePrior _ rfl⟩

/-- C1 (counterexample): a non-2xx response (status 404) whose JSON body has
no `predictions` array ends in failure — the generic alert is shown and the
loading flag is cleared — yet the stored predictions are NOT the ones stored
before the attempt: the claim's atomicity part is false. -/
theorem C1_counterexample :
    Event.alertShown errorAlertMsg ∈
        sendImageToServer statePrior "file:///photo.jpg" demoFailEnv ∧
    (runEvents statePrior
        (sendImageToServer statePrior "file:///photo.jpg" demoFailEnv)).isLoading = false ∧
    ¬ (runEvents statePrior
        (sendImageToServer statePrior "file:///photo.jpg" demoFailEnv)).predictions =
          statePrior.predictions := by
  refine ⟨by decide, by decide, by decide⟩

/-- C1 (amended): every failing upload attempt clears the loading flag and
shows the generic alert; the stored predictions survive a fetch rejection or
a JSON parse failure unchanged, but a failing response whose body parses as
JSON overwrites them with the body's absent `predictions` field
(`undefined`, modelled as `none`). -/
theorem C1_failure_alert_and_prediction_fate (s : SessionState) (uri : String)
    (env : UploadEnv) (h : uploadAttemptFails env) :
    Event.alertShown errorAlertMsg ∈ sendImageToServer s uri env ∧
    (runEvents s (sendImageToServer s uri env)).isLoading = false ∧
    (runEvents s (sendImageToServer s uri env)).predictions =
      (match env.fetch with
       | .reject => s.predictions
       | .resolve _ .parseFail => s.predictions
       | .resolve _ (.parsed _) => none) := by
  obtain ⟨f, sp⟩ := env
  rcases h with h | ⟨st, h⟩ | ⟨st, h⟩ <;> cases h <;>
    simp [sendImageToServer, speakPredictions, runEvents, applyEvent]

/-- Witness for C1's amended theorem at the concrete failing environment. -/
theorem C1_witness :
    uploadAttemptFails demoFailEnv ∧
    (Event.alertShown errorAlertMsg ∈
        sendImageToServer statePrior "file:///photo.jpg" demoFailEnv ∧
      (runEvents statePrior
        (sendImageToServer statePrior "file:///photo.jpg" demoFailEnv)).isLoading = false ∧
      (runEvents statePrior
        (sendImageToServer statePrior "file:///photo.jpg" demoFailEnv)).predictions =
        (match demoFailEnv.fetch with
         | .reject => statePrior.predictions
         | .resolve _ .parseFail => statePrior.predictions
         | .resolve _ (.parsed _) => none)) :=
  ⟨Or.inr (Or.inr ⟨404, rfl⟩),
    C1_failure_alert_and_prediction_fate statePrior "file:///photo.jpg" demoFailEnv
      (Or.inr (Or.inr ⟨404, rfl⟩))⟩

/-- C10: when the response body parses as JSON, the fourth event of the run
is already the write of the raw `data.predictions` field into the predictions
state — before any shape validation, speech, or alert — and the final
predictions equal that field; an alert occurs in the run exactly when the
field was absent (`undefined`), and in that case the previously stored
predictions have been replaced by `none` when the alert fires. -/
theorem C10_unvalidated_overwrite (s : SessionState) (uri : String) (env : UploadEnv)
    (st : Nat) (p : Option (List Prediction))
    (hf : env.fetch = .resolve st (.parsed p)) :
    (sendImageToServer s uri env).take 4 =
      [Event.setLoading true, Event.fetchStart (mkRequest s.serverIP uri),
        Event.fetchEnd, Event.setPredictions p] ∧
    (stateAt s (sendImageToServer s uri env) 4).predictions = p ∧
    (runEvents s (sendImageToServer s uri env)).predictions = p ∧
    (sendImageToServer s uri env).any isAlertEv = p.isNone := by
  obtain ⟨f, sp⟩ := env
  cases hf
  cases p with
  | none =>
      cases sp <;>
        simp [sendImageToServer, speakPredictions, stateAt, runEvents, applyEvent, isAlertEv]
  | some l =>
      cases sp <;>
        simp [sendImageToServer, speakPredictions, stateAt, runEvents, applyEvent, isAlertEv]

/-- Witness for C10 at the concrete failing environment: the prior
predictions are overwritten with the absent field before the alert. -/
theorem C10_witness :
    demoFailEnv.fetch = .resolve 404 (.parsed none) ∧
    ((sendImageToServer statePrior "file:///photo.jpg" demoFailEnv).take 4 =
      [Event.setLoading true, Event.fetchStart (mkRequest statePrior.serverIP "file:///photo.jpg"),
        Event.fetchEnd, Event.setPredictions none] ∧
    (stateAt statePrior (sendImageToServer statePrior "file:///photo.jpg" demoFailEnv) 4).predictions
        = none ∧
    (runEvents statePrior (sendImageToServer statePrior "file:///photo.jpg" demoFailEnv)).predictions
        = none ∧
    (sendImageToServer statePrior "file:///photo.jpg" demoFailEnv).any isAlertEv =
      (none : Option (List Prediction)).isNone) :=
  ⟨rfl, C10_unvalidated_overwrite statePrior "file:///photo.jpg" demoFailEnv 404 none rfl⟩

/-- C4: whenever the fetch resolves with a JSON body carrying a non-empty
predictions array, the speech engine is invoked with exactly the
concatenation, in list order and joined by `". "`, of
`{class_name} con {(probability*100).toFixed(2)}% de probabilidad`. -/
theorem C4_speech_utterance (s : SessionState) (uri : String) (env : UploadEnv)
    (st : Nat) (l : List Prediction)
    (hf : env.fetch = .resolve st (.parsed (some l))) (hne : l ≠ []) :
    Event.speak (String.intercalate ". "
        (l.map fun p =>
          p.class_name ++ " con " ++ jsToFixed2 (timesOneHundred p.probability) ++
            "% de probabilidad"))
      ∈ sendImageToServer s uri env := by
  obtain ⟨f, sp⟩ := env
  cases hf
  have hmap : (fun p : Prediction =>
      p.class_name ++ " con " ++ jsToFixed2 (timesOneHundred p.probability) ++
        "% de probabilidad") = predPhrase := by
    funext p
    rfl
  rw [hmap]
  cases sp <;> simp [sendImageToServer, speakPredictions]

/-- Witness for C4: the spec's worked example, probability 0.9321, is spoken
as `gato con 93.21% de probabilidad`. -/
theorem C4_witness :
    demoOkEnv.fetch = .resolve 200 (.parsed (some [gato])) ∧
    [gato] ≠ [] ∧
    Event.speak "gato con 93.21% de probabilidad" ∈
      sendImageToServer initialState "file:///photo.jpg" demoOkEnv := by
  refine ⟨rfl, by decide, ?_⟩
  have h := C4_speech_utterance initialState "file:///photo.jpg" demoOkEnv 200 [gato]
    rfl (by decide)
  have e : String.intercalate ". "
      ([gato].map fun p =>
        p.class_name ++ " con " ++ jsToFixed2 (timesOneHundred p.probability) ++
          "% de probabilidad") = "gato con 93.21% de probabilidad" := by decide
  rw [e] at h
  exact h

/-- C5: whenever the loading flag is false and the stored predictions are a
non-empty array, the render shows the results card whose rows are exactly the
predictions in stored order, each row displaying the class name and
`(probability*100).toFixed(2)` followed by `%`; in particular the row count
equals the prediction count. -/
theorem C5_render_rows (s : SessionState) (l : List Prediction)
    (hl : s.isLoading = false) (hp : s.predictions = some l) (hne : l ≠ []) :
    (render s).body =
      .results (l.map fun p =>
        (p.class_name, jsToFixed2 (timesOneHundred p.probability) ++ "%")) ∧
    (l.map fun p =>
      (p.class_name, jsToFixed2 (timesOneHundred p.probability) ++ "%")).length = l.length := by
  have hpos : 0 < l.length := List.length_pos.mpr hne
  exact ⟨by simp [render, hl, hp, hpos], by simp⟩

/-- Witness for C5: one stored prediction with probability 0.9321 renders as
the single row (`gato`, `93.21%`). -/
theorem C5_witness :
    statePrior.isLoading = false ∧
    statePrior.predictions = some [gato] ∧
    [gato] ≠ [] ∧
    (render statePrior).body = .results [("gato", "93.21%")] ∧
    ([("gato", "93.21%")] : List (String × String)).length = [gato].length := by
  refine ⟨rfl, rfl, by decide, ?_, by decide⟩
  have h := (C5_render_rows statePrior [gato] rfl rfl (by decide)).1
  have e : [gato].map (fun p =>
      (p.class_name, jsToFixed2 (timesOneHundred p.probability) ++ "%")) =
      [("gato", "93.21%")] := by decide
  rw [e] at h
  exact h

/-- C7: on a granted, non-cancelled capture, the predictions state is
untouched at every trace position up to and including the settling of the
fetch (positions 0 to 4; the loading flag is already true at position 2), and
the final predictions are the response's `predictions` field when a JSON body
arrived, and the untouched prior list otherwise. -/
theorem C7_capture_preserves_predictions (s : SessionState) (env : CaptureEnv)
    (uri : String) (i : Nat)
    (hp : env.permission = .granted) (hc : env.capture = .captured uri) (hi : i ≤ 4) :
    (stateAt s (takePhoto s env) i).predictions = s.predictions ∧
    (stateAt s (takePhoto s env) 2).isLoading = true ∧
    (runEvents s (takePhoto s env)).predictions =
      (match env.upload.fetch with
       | .resolve _ (.parsed p) => p
       | _ => s.predictions) := by
  obtain ⟨p, c, u⟩ := env
  cases hp
  cases hc
  obtain ⟨f, sp⟩ := u
  refine ⟨?_, ?_, ?_⟩
  · cases f with
    | reject =>
        interval_cases i <;>
          simp [takePhoto, sendImageToServer, stateAt, runEvents, applyEvent]
    | resolve st body =>
        cases body with
        | parseFail =>
            interval_cases i <;>
              simp [takePhoto, sendImageToServer, stateAt, runEvents, applyEvent]
        | parsed jp =>
            cases jp <;> cases sp <;>
              (interval_cases i <;>
                simp [takePhoto, sendImageToServer, speakPredictions, stateAt, runEvents,
                  applyEvent])
  · simp [takePhoto, sendImageToServer, stateAt, runEvents, applyEvent]
  · cases f with
    | reject => simp [takePhoto, sendImageToServer, runEvents, applyEvent]
    | resolve st body =>
        cases body with
        | parseFail => simp [takePhoto, sendImageToServer, runEvents, applyEvent]
        | parsed jp =>
            cases jp <;> cases sp <;>
              simp [takePhoto, sendImageToServer, speakPredictions, runEvents, applyEvent]

/-- Witness for C7 at a concrete successful run: prior predictions are intact
at position 4 and replaced wholesale by the response afterwards. -/
theorem C7_witness :
    ({ permission := .granted, capture := .captured "file:///photo.jpg",
        upload := demoOkEnv } : CaptureEnv).permission = .granted ∧
    ({ permission := .granted, capture := .captured "file:///photo.jpg",
        upload := demoOkEnv } : CaptureEnv).capture = .captured "file:///photo.jpg" ∧
    (4 : Nat) ≤ 4 ∧
    ((stateAt statePrior (takePhoto statePrior
        { permission := .granted, capture := .captured "file:///photo.jpg",
          upload := demoOkEnv }) 4).predictions = statePrior.predictions ∧
      (stateAt statePrior (takePhoto statePrior
        { permission := .granted, capture := .captured "file:///photo.jpg",
          upload := demoOkEnv }) 2).isLoading = true ∧
      (runEvents statePrior (takePhoto statePrior
        { permission := .granted, capture := .captured "file:///photo.jpg",
          upload := demoOkEnv })).predictions = some [gato]) :=
  ⟨rfl, rfl, by decide,
    C7_capture_preserves_predictions statePrior _ "file:///photo.jpg" 4 rfl rfl (by decide)⟩

/-- C2 (counterexample): in a successful run, at the trace position right
after the response's predictions have been stored (the speech step is still
to run), the loading flag is true although the network request has already
settled: loading is not equivalent to the request being in flight. -/
theorem C2_counterexample :
    (stateAt initialState
        (sendImageToServer initialState "file:///photo.jpg" demoOkEnv) 4).isLoading = true ∧
    inFlightAt (sendImageToServer initialState "file:///photo.jpg" demoOkEnv) 4 = false := by
  exact ⟨by decide, by decide⟩

/-- C2 (amended): starting from a non-loading state, the loading flag is true
at exactly the trace positions strictly inside the upload operation — from
its first step (set before the fetch is issued) until its last step (the
`finally`, which runs only after the response has been parsed and the speech
step has finished) — and it is never false while the request is in flight. -/
theorem C2_loading_interval (s : SessionState) (uri : String) (env : UploadEnv)
    (h : s.isLoading = false) (i : Nat)
    (hi : i ≤ (sendImageToServer s uri env).length) :
    ((stateAt s (sendImageToServer s uri env) i).isLoading = true ↔
      1 ≤ i ∧ i < (sendImageToServer s uri env).length) ∧
    (inFlightAt (sendImageToServer s uri env) i &&
      !(stateAt s (sendImageToServer s uri env) i).isLoading) = false := by
  obtain ⟨f, sp⟩ := env
  cases f with
  | reject =>
      simp only [sendImageToServer, List.length_cons, List.length_nil] at hi ⊢
      interval_cases i <;>
        simp [stateAt, runEvents, applyEvent, inFlightAt, isFetchStartEv, isFetchEndEv, h]
  | resolve st body =>
      cases body with
      | parseFail =>
          simp only [sendImageToServer, List.length_cons, List.length_nil] at hi ⊢
          interval_cases i <;>
            simp [stateAt, runEvents, applyEvent, inFlightAt, isFetchStartEv, isFetchEndEv, h]
      | parsed jp =>
          cases jp with
          | none =>
              have hb : i ≤ 7 := by simpa [sendImageToServer, speakPredictions] using hi
              interval_cases i <;>
                simp [sendImageToServer, speakPredictions, stateAt, runEvents, applyEvent,
                  inFlightAt, isFetchStartEv, isFetchEndEv, h]
          | some l =>
              cases sp with
              | ok =>
                  have hb : i ≤ 6 := by
                    simpa [sendImageToServer, speakPredictions] using hi
                  interval_cases i <;>
                    simp [sendImageToServer, speakPredictions, stateAt, runEvents, applyEvent,
                      inFlightAt, isFetchStartEv, isFetchEndEv, h]
              | engineFail =>
                  have hb : i ≤ 7 := by
                    simpa [sendImageToServer, speakPredictions] using hi
                  interval_cases i <;>
                    simp [sendImageToServer, speakPredictions, stateAt, runEvents, applyEvent,
                      inFlightAt, isFetchStartEv, isFetchEndEv, h]

/-- Witness for C2's amended theorem: at position 2 of a successful run the
flag is on, the position is interior, and the in-flight check passes. -/
theorem C2_witness :
    initialState.isLoading = false ∧
    (2 : Nat) ≤ (sendImageToServer initialState "file:///photo.jpg" demoOkEnv).length ∧
    (((stateAt initialState
        (sendImageToServer initialState "file:///photo.jpg" demoOkEnv) 2).isLoading = true ↔
      1 ≤ 2 ∧ 2 < (sendImageToServer initialState "file:///photo.jpg" demoOkEnv).length) ∧
    (inFlightAt (sendImageToServer initialState "file:///photo.jpg" demoOkEnv) 2 &&
      !(stateAt initialState
        (sendImageToServer initialState "file:///photo.jpg" demoOkEnv) 2).isLoading) = false) :=
  ⟨rfl, by decide,
    C2_loading_interval initialState "file:///photo.jpg" demoOkEnv rfl 2 (by decide)⟩
